import Mathlib

/-!
Verification of the DocForge multi-tenant domain resolution and subdomain
session authentication subsystem, shallowly embedded from:

  * src/api/server.js       (tenant schema, identifyTenantByDomain,
                             verifySubdomainAccess, POST /api/subdomain/login,
                             POST /api/tenant/by-domain, domain / password /
                             branding update handlers)
  * src/frontend/server.js  (identifyTenantByDomain middleware: resolution
                             plus the frontend-side access gate)

Mongo documents become Lean structures; the tenant collection becomes a
`List Tenant`; `Tenant.findOne` becomes `List.find?`; the in-process
`subdomainSessions` Map becomes an association list with first-match `get`
and cons `put` (last-writer-wins, as for a JS Map); `Date.now()` values are
`Nat` milliseconds; `crypto.randomBytes(32)` is modelled by passing the 32
random bytes as an explicit argument to the login handler.
-/

namespace DocForge

/-- The `domainSettings` sub-document of the tenant schema (src/api/server.js,
TenantSchema). `brandColor` defaults to "#3B82F6" at creation. -/
structure DomainSettings where
  favicon : Option String
  customCSS : Option String
  logoUrl : Option String
  brandColor : String
deriving DecidableEq

/-- The `Tenant` mongo document (src/api/server.js, TenantSchema).  `id` is
the mongo `_id` as an opaque string (the code always compares
`_id.toString()`). `none` models a JS `null` field. -/
structure Tenant where
  id : String
  name : String
  domain : String
  apiKey : String
  customDomain : Option String
  subdomain : Option String
  subdomainPassword : Option String
  domainVerified : Bool
  domainSettings : DomainSettings
deriving DecidableEq

/-- JS template-literal rendering of a possibly-null string field:
`${null}` prints as "null". -/
def optStr : Option String → String
  | some s => s
  | none => "null"

/-- JS truthiness of a possibly-null string: `null` and `""` are falsy. -/
def truthyOpt : Option String → Bool
  | none => false
  | some s => !(s == "")

/-- Mongo lookup `Tenant.findOne` on the customDomain field over the tenant collection. -/
def findByCustomDomain (dir : List Tenant) (host : String) : Option Tenant :=
  dir.find? fun t => t.customDomain == some host

/-- Mongo lookup `Tenant.findOne` on the subdomain field over the tenant collection. -/
def findBySubdomain (dir : List Tenant) (label : String) : Option Tenant :=
  dir.find? fun t => t.subdomain == some label

/-- Boolean list-starts-with, used to embed `String.prototype.startsWith`
and substring search over the underlying character lists. -/
def listStarts : List Char → List Char → Bool
  | [], _ => true
  | _ :: _, [] => false
  | a :: as, b :: bs => a == b && listStarts as bs

/-- JS `haystack.includes(needle)` substring search, over character lists. -/
def hasSubstr (needle : List Char) : List Char → Bool
  | [] => needle.isEmpty
  | c :: cs => listStarts needle (c :: cs) || hasSubstr needle cs

/-- The characters of `host.split('.')[0]`: everything before the first
dot (the whole string when no dot occurs). -/
def firstLabel : List Char → List Char
  | [] => []
  | c :: cs => if c == '.' then [] else c :: firstLabel cs

/-- JS `host.split('.')[0]` as a string. -/
def hostFirstLabel (host : String) : String := String.mk (firstLabel host.toList)

/-- JS `host.includes('.docforge.com')`, the parent-domain test actually used
by both resolvers (src/api/server.js line 142, src/frontend/server.js
line 59). -/
def includesDocforge (host : String) : Bool :=
  hasSubstr ".docforge.com".toList host.toList

/-- Modelled from the spec: "the host ends with the fixed parent domain
suffix".  This is the spec's wording of the parent-domain test, written as
an ends-with check, to be compared against the source's `includesDocforge`
substring test. -/
def specEndsWithParentSuffix (host : String) : Bool :=
  listStarts ".docforge.com".toList.reverse host.toList.reverse

/-- Resolver `identifyTenantByDomain` (src/api/server.js lines 133-157): custom
domain exact match first; otherwise, if the host contains ".docforge.com",
look up the leftmost label as a subdomain; otherwise no tenant.  The
frontend middleware (src/frontend/server.js lines 48-69) performs the same
two lookups through `POST /api/tenant/by-domain`, which executes the same
two `findOne` queries, so this resolver is shared by both processes. -/
def identifyTenantByDomain (dir : List Tenant) (host : String) : Option Tenant :=
  match findByCustomDomain dir host with
  | some t => some t
  | none =>
    if includesDocforge host then
      findBySubdomain dir (hostFirstLabel host)
    else
      none

/-- A subdomain session (src/api/server.js lines 709-713): token payload
stored in the `subdomainSessions` map. `tenantId` is `tenant._id.toString()`,
`expires` is a `Date.now()` millisecond instant. -/
structure Session where
  tenantId : String
  subdomain : String
  expires : Nat
deriving DecidableEq

/-- The process-local `subdomainSessions` JS Map (src/api/server.js line
657), as an association list: `get` takes the first binding, `put` conses,
so a later `set` on the same token shadows the earlier one. -/
abbrev SessionStore := List (String × Session)

/-- Parsed request cookies (`req.cookies`), keyed by cookie name. -/
abbrev CookieMap := List (String × String)

/-- Session map read `subdomainSessions.get(token)`; `none` when `has` is false. -/
def storeGet (store : SessionStore) (tok : String) : Option Session :=
  (store.find? fun e => e.1 == tok).map fun e => e.2

/-- Cookie read `req.cookies[name]`. -/
def cookieGet (cookies : CookieMap) (name : String) : Option String :=
  (cookies.find? fun e => e.1 == name).map fun e => e.2

/-- JS `path.startsWith(p)` for request paths. -/
def pathStartsWith (pre p : String) : Bool := listStarts pre.toList p.toList

/-- The exemption test shared verbatim by both gates (src/api/server.js
lines 667-668, src/frontend/server.js line 44): API, css, js and images
path namespaces. -/
def exemptPath (p : String) : Bool :=
  pathStartsWith "/api/" p || pathStartsWith "/css/" p ||
  pathStartsWith "/js/" p || pathStartsWith "/images/" p

/-- Outcome of the API-side gate, tagged by the branch of
`verifySubdomainAccess` that produced it: the early `next()` for exempt
paths, `next()` falling through to content (with or without
`req.authenticatedTenant` set), or `res.redirect(target)`. -/
inductive GateResult where
  | exempt
  | allow (authenticated : Bool)
  | challenge (redirectTarget : String)
deriving DecidableEq

/-- The API-side gate `verifySubdomainAccess` (src/api/server.js lines 665-690).  Exemption
first; then, when a tenant was resolved, look up the per-subdomain cookie,
resolve its token in the session store, and allow only when the stored
tenant id equals the resolved tenant's id and the expiry is strictly in
the future; every other outcome redirects to the subdomain login page.
A request with no resolved tenant falls through with plain `next()`.
JS falsiness: an empty cookie value is treated as absent. -/
def verifySubdomainAccess (store : SessionStore) (now : Nat) (path : String)
    (domainTenant : Option Tenant) (cookies : CookieMap) : GateResult :=
  if exemptPath path then
    .exempt
  else
    match domainTenant with
    | none => .allow false
    | some t =>
      let redir := "/subdomain-login?subdomain=" ++ optStr t.subdomain
      match cookieGet cookies ("subdomain_auth_" ++ optStr t.subdomain) with
      | none => .challenge redir
      | some tok =>
        if tok == "" then .challenge redir
        else
          match storeGet store tok with
          | none => .challenge redir
          | some sess =>
            if sess.tenantId == t.id && decide (now < sess.expires) then .allow true
            else .challenge redir

/-- Outcome of the frontend middleware gate, tagged by branch: the early
skip for exempt paths, `next()` (carrying the resolved tenant attached to
the request, if any), or `res.redirect(target)`. -/
inductive FrontendResult where
  | exempt
  | next (tenant : Option Tenant)
  | redirect (target : String)
deriving DecidableEq

/-- The frontend-side gate inside `identifyTenantByDomain`
(src/frontend/server.js lines 38-111).  Exempt prefixes are skipped before
resolution; a resolved tenant with a truthy subdomain AND truthy
subdomain password triggers the auth check, which passes the login page
through and otherwise only tests cookie PRESENCE (the code's own comment:
"simplified check for now") - any nonempty cookie value proceeds. -/
def frontendGate (dir : List Tenant) (path host : String) (cookies : CookieMap) :
    FrontendResult :=
  if exemptPath path then
    .exempt
  else
    match identifyTenantByDomain dir host with
    | none => .next none
    | some t =>
      if truthyOpt t.subdomain && truthyOpt t.subdomainPassword then
        if path == "/subdomain-login" then .next (some t)
        else
          match cookieGet cookies ("subdomain_auth_" ++ optStr t.subdomain) with
          | none => .redirect ("/subdomain-login?subdomain=" ++ optStr t.subdomain)
          | some tok =>
            if tok == "" then .redirect ("/subdomain-login?subdomain=" ++ optStr t.subdomain)
            else .next (some t)
      else .next (some t)

/-- One lowercase hex digit, as produced by Node's
`Buffer.toString('hex')`: 0-9 then a-f ('0' is code 48, 'a' is code 97). -/
def hexDigit (n : Nat) : Char :=
  if n < 10 then Char.ofNat (48 + n) else Char.ofNat (87 + n)

/-- Hex characters of a byte list: each byte yields its high then low
nibble digit, concatenated. -/
def hexChars : List Nat → List Char
  | [] => []
  | b :: bs => hexDigit (b / 16 % 16) :: hexDigit (b % 16) :: hexChars bs

/-- Node `buffer.toString('hex')` for a byte list. -/
def bytesToHex (bs : List Nat) : String := String.mk (hexChars bs)

/-- Token mint `generateSubdomainToken` (src/api/server.js lines 660-662):
`crypto.randomBytes(32).toString('hex')`, with the 32 random bytes passed
explicitly as the randomness source. -/
def generateSubdomainToken (randomBytes : List Nat) : String := bytesToHex randomBytes

/-- The domain of the token generator: lists of 32 bytes, each below 256 -
the 2^256-element randomness space drawn by `crypto.randomBytes(32)`. -/
abbrev ByteList32 := { l : List Nat // l.length = 32 ∧ ∀ b ∈ l, b < 256 }

/-- A `res.cookie(name, value, options)` call as issued by the login
handler (src/api/server.js lines 718-722). -/
structure SetCookie where
  name : String
  value : String
  httpOnly : Bool
  secure : Bool
  maxAge : Nat
deriving DecidableEq

/-- Outcome of `POST /api/subdomain/login`: 404 when the subdomain matches
no tenant, 401 on a password failure, or success carrying the issued
cookie and the redirect target. -/
inductive LoginResult where
  | notFound
  | invalidPassword
  | success (cookie : SetCookie) (redirectUrl : String)
deriving DecidableEq

/-- Twenty-four hours in milliseconds, as written in the login handler. -/
def dayMs : Nat := 24 * 60 * 60 * 1000

/-- Handler of `POST /api/subdomain/login` (src/api/server.js lines 693-728).
`production` is `process.env.NODE_ENV === 'production'`; `randomBytes`
models the `crypto.randomBytes(32)` draw; returns the HTTP outcome and
the session store after the call.  JS falsiness: a stored empty-string
password fails the `!tenant.subdomainPassword` test and is rejected. -/
def subdomainLogin (dir : List Tenant) (store : SessionStore) (production : Bool)
    (now : Nat) (randomBytes : List Nat) (subdomain password : String) :
    LoginResult × SessionStore :=
  match findBySubdomain dir subdomain with
  | none => (.notFound, store)
  | some t =>
    match t.subdomainPassword with
    | none => (.invalidPassword, store)
    | some pw =>
      if pw == "" then (.invalidPassword, store)
      else if !(pw == password) then (.invalidPassword, store)
      else
        let sessionToken := generateSubdomainToken randomBytes
        let sess : Session := ⟨t.id, optStr t.subdomain, now + dayMs⟩
        (.success ⟨"subdomain_auth_" ++ subdomain, sessionToken, true, production, dayMs⟩
           "/dashboard",
         (sessionToken, sess) :: store)

/-- The JSON body returned by `POST /api/tenant/by-domain` on success
(src/api/server.js lines 521-531): a projection of the tenant record that
includes `apiKey` and `subdomainPassword`. -/
structure ByDomainResponse where
  id : String
  name : String
  domain : String
  apiKey : String
  customDomain : Option String
  subdomain : Option String
  subdomainPassword : Option String
  domainVerified : Bool
  domainSettings : DomainSettings
deriving DecidableEq

/-- The response projection applied to a found tenant. -/
def tenantToByDomainResponse (t : Tenant) : ByDomainResponse :=
  ⟨t.id, t.name, t.domain, t.apiKey, t.customDomain, t.subdomain,
   t.subdomainPassword, t.domainVerified, t.domainSettings⟩

/-- Handler of `POST /api/tenant/by-domain` (src/api/server.js lines 506-535).  The
route carries no `verifyApiKey` middleware and this function accordingly
takes no credential: any caller supplying a body reaches it.  `none`
models the 404 branch. -/
def byDomainHandler (dir : List Tenant) (domain ty : String) : Option ByDomainResponse :=
  let tenant : Option Tenant :=
    if ty == "custom" then findByCustomDomain dir domain
    else if ty == "subdomain" then findBySubdomain dir domain
    else none
  tenant.map tenantToByDomainResponse

/-- ASCII alphanumeric test, the `[a-zA-Z0-9]` character class. -/
def isAlnumAscii (c : Char) : Bool := c.isAlpha || c.isDigit

/-- One DNS label per the regex
`[a-zA-Z0-9][a-zA-Z0-9-]{0,61}[a-zA-Z0-9]` used by `isValidDomain` and
`isValidSubdomain` (src/api/server.js lines 634-642): 2 to 63 characters,
alphanumeric ends, hyphens allowed inside. -/
def isValidLabel (cs : List Char) : Bool :=
  match cs with
  | [] => false
  | [_] => false
  | c :: rest =>
    isAlnumAscii c && decide (cs.length ≤ 63) &&
    (match rest.getLast? with
     | some lastc => isAlnumAscii lastc &&
         (rest.dropLast.all fun m => isAlnumAscii m || m == '-')
     | none => false)

/-- Split a character list on dots (the `(?:\.label)*` structure of the
domain regex); never returns an empty list of groups. -/
def splitDots : List Char → List (List Char)
  | [] => [[]]
  | c :: cs =>
    if c == '.' then [] :: splitDots cs
    else
      match splitDots cs with
      | [] => [[c]]
      | g :: gs => (c :: g) :: gs

/-- Validator `isValidDomain` (src/api/server.js lines 634-637): every dot-separated
label is a valid DNS label. -/
def isValidDomain (s : String) : Bool := (splitDots s.toList).all isValidLabel

/-- Validator `isValidSubdomain` (src/api/server.js lines 639-642): a single label. -/
def isValidSubdomain (s : String) : Bool := isValidLabel s.toList

/-- Handler of `POST /api/tenant/domain` (src/api/server.js lines 538-585): validate
the formats, reject a custom domain or subdomain already claimed by a
DIFFERENT tenant, then overwrite `customDomain`, `subdomain` (falsy
inputs become null, `x || null`) and reset `domainVerified`. -/
def updateDomainHandler (dir : List Tenant) (t : Tenant)
    (customDomain subdomain : Option String) : Except String Tenant :=
  if truthyOpt customDomain && !isValidDomain (customDomain.getD "") then
    .error "Invalid custom domain format"
  else if truthyOpt subdomain && !isValidSubdomain (subdomain.getD "") then
    .error "Invalid subdomain format"
  else if truthyOpt customDomain &&
      (dir.any fun u => u.customDomain == customDomain && !(u.id == t.id)) then
    .error "Custom domain already in use"
  else if truthyOpt subdomain &&
      (dir.any fun u => u.subdomain == subdomain && !(u.id == t.id)) then
    .error "Subdomain already in use"
  else
    .ok { t with
      customDomain := if truthyOpt customDomain then customDomain else none,
      subdomain := if truthyOpt subdomain then subdomain else none,
      domainVerified := false }

/-- Handler of `POST /api/tenant/subdomain-password` (src/api/server.js lines
731-746): reject a falsy or short password, otherwise overwrite only
`subdomainPassword`. -/
def updateSubdomainPasswordHandler (t : Tenant) (password : Option String) :
    Except String Tenant :=
  if !truthyOpt password || decide ((password.getD "").length < 6) then
    .error "Password must be at least 6 characters"
  else
    .ok { t with subdomainPassword := password }

/-- A JS `a || b` on nullable strings: keep the new value when truthy,
else the previous one. -/
def orElseStr (newVal oldVal : Option String) : Option String :=
  if truthyOpt newVal then newVal else oldVal

/-- Handler of `POST /api/tenant/branding` (src/api/server.js lines 610-631):
rebuild `domainSettings` field-wise with `new || old` (and
`|| '#3B82F6'` as the brand color fallback); nothing else changes. -/
def brandingHandler (t : Tenant) (favicon customCSS logoUrl brandColor : Option String) :
    Tenant :=
  { t with domainSettings :=
    { favicon := orElseStr favicon t.domainSettings.favicon,
      customCSS := orElseStr customCSS t.domainSettings.customCSS,
      logoUrl := orElseStr logoUrl t.domainSettings.logoUrl,
      brandColor :=
        if truthyOpt brandColor then brandColor.getD ""
        else if t.domainSettings.brandColor == "" then "#3B82F6"
        else t.domainSettings.brandColor } }

/-- The tenant record that results from a handler call: the updated record
on success, the untouched one on a validation error. -/
def okOr (r : Except String Tenant) (d : Tenant) : Tenant :=
  match r with
  | .ok a => a
  | .error _ => d

/-- Default branding settings at tenant creation. -/
def defaultSettings : DomainSettings := ⟨none, none, none, "#3B82F6"⟩

/-- Sample tenant with subdomain "acme" and a subdomain password. -/
def acmeT : Tenant :=
  ⟨"idA", "Acme", "acme.com", "key-acme", none, some "acme", some "secret123",
   false, defaultSettings⟩

/-- Sample tenant with subdomain "beta" and a different password. -/
def betaT : Tenant :=
  ⟨"idB", "Beta", "beta.com", "key-beta", none, some "beta", some "pw-beta",
   false, defaultSettings⟩

/-- Sample tenant with subdomain "gamma" and NO subdomain password. -/
def noPassT : Tenant :=
  ⟨"idC", "Gamma", "gamma.com", "key-gamma", none, some "gamma", none,
   false, defaultSettings⟩

/-- Sample tenant holding a custom domain. -/
def customT : Tenant :=
  ⟨"idD", "Delta", "delta.com", "key-delta", some "docs.delta.com", some "delta",
   none, true, defaultSettings⟩

/-- Sample tenant whose CUSTOM domain is literally "acme.docforge.com",
colliding with acmeT's managed subdomain host. -/
def trickyT : Tenant :=
  ⟨"idE", "Epsi", "e.com", "key-e", some "acme.docforge.com", none, none,
   false, defaultSettings⟩

/-- Thirty-two zero bytes, a concrete randomness draw for witnesses. -/
def zeros32 : List Nat := List.replicate 32 0

end DocForge
namespace DocForge

/-- Helper: `find?` on the tenant list returns the unique tenant whose
custom domain equals the host. -/
theorem findByCustomDomain_of_unique (dir : List Tenant) (host : String) (t : Tenant)
    (hmem : t ∈ dir) (hcd : t.customDomain = some host)
    (huniq : ∀ u ∈ dir, u.customDomain = some host → u = t) :
    findByCustomDomain dir host = some t := by
  induction dir with
  | nil => cases hmem
  | cons a as ih =>
    unfold findByCustomDomain
    by_cases hpa : (a.customDomain == some host) = true
    · rw [@List.find?_cons_of_pos Tenant (fun u => u.customDomain == some host) a as hpa]
      have ha : a = t := huniq a (List.mem_cons_self a as) (by simpa using hpa)
      rw [ha]
    · rw [@List.find?_cons_of_neg Tenant (fun u => u.customDomain == some host) a as
        (by simpa using hpa)]
      have hmem2 : t ∈ as := by
        rcases List.mem_cons.mp hmem with h | h
        · exact absurd (show (a.customDomain == some host) = true by
            rw [← h, hcd]; simp) hpa
        · exact h
      exact ih hmem2 (fun u hu hcu => huniq u (List.mem_cons_of_mem _ hu) hcu)

/-- Helper: a tenant found by subdomain lookup carries that subdomain. -/
theorem subdomain_of_findBySubdomain {dir : List Tenant} {sub : String} {t : Tenant}
    (h : findBySubdomain dir sub = some t) : t.subdomain = some sub := by
  unfold findBySubdomain at h
  have hp := List.find?_some h
  simpa using hp

end DocForge
namespace DocForge

/-- C1: the claim says the Access Gate returns CHALLENGE, never ALLOW, for
an unknown, tenant-mismatched or expired session token, a garbage cookie
value, or a previously valid token past expiry.  The API-side gate does so,
but the frontend gate proceeds to content for ANY nonempty cookie value:
with tenant acme (password configured) resolved for host
acme.docforge.com, a cookie `subdomain_auth_acme=garbage` unknown to the
session store, and a previously valid token `tok` that is expired at
`now = 100`, the frontend middleware answers `next` (ALLOW) in both cases
while the API gate challenges them (and allows `tok` before expiry). -/
theorem c1_frontend_gate_skips_token_validation :
    frontendGate [acmeT] "/" "acme.docforge.com"
      [("subdomain_auth_acme", "garbage")] = .next (some acmeT) ∧
    verifySubdomainAccess [] 0 "/" (some acmeT)
      [("subdomain_auth_acme", "garbage")] =
      .challenge "/subdomain-login?subdomain=acme" ∧
    verifySubdomainAccess [("tok", ⟨"idA", "acme", 100⟩)] 100 "/" (some acmeT)
      [("subdomain_auth_acme", "tok")] =
      .challenge "/subdomain-login?subdomain=acme" ∧
    verifySubdomainAccess [("tok", ⟨"idA", "acme", 100⟩)] 99 "/" (some acmeT)
      [("subdomain_auth_acme", "tok")] = .allow true ∧
    frontendGate [acmeT] "/" "acme.docforge.com"
      [("subdomain_auth_acme", "tok")] = .next (some acmeT) := by
  decide

/-- C2: the claim says a resolved tenant with no subdomain password gets
ALLOW on every non-exempt request regardless of cookies.  The frontend
gate does ALLOW, but the API-side `verifySubdomainAccess` has no
password check at all: with tenant gamma (no password) resolved on the
non-exempt path /uploads/logo.png and no cookies it CHALLENGEs - and no
session could ever be minted for gamma, since the login handler rejects
every password for a tenant whose `subdomainPassword` is null. -/
theorem c2_api_gate_challenges_passwordless_tenant :
    verifySubdomainAccess [] 0 "/uploads/logo.png" (some noPassT) [] =
      .challenge "/subdomain-login?subdomain=gamma" ∧
    frontendGate [noPassT] "/uploads/logo.png" "gamma.docforge.com" [] =
      .next (some noPassT) ∧
    (subdomainLogin [noPassT] [] false 0 zeros32 "gamma" "anything").1 =
      .invalidPassword ∧
    (subdomainLogin [noPassT] [] false 0 zeros32 "gamma" "").1 =
      .invalidPassword := by
  decide

/-- C3: the claim says a session minted for tenant A never produces ALLOW
in tenant B's resolved context, even under a forced cookie name
collision.  The API-side gate indeed refuses A's token (tenantId "idA")
when tenant beta ("idB") is resolved, and accepts the same token in A's
own context; but the frontend gate, which never consults the session
store, answers `next` (ALLOW) in beta's context when A's token is
presented under the forged cookie name `subdomain_auth_beta`. -/
theorem c3_cross_tenant_session_frontend_allow :
    verifySubdomainAccess [("tokA", ⟨"idA", "acme", 1000⟩)] 0 "/" (some betaT)
      [("subdomain_auth_beta", "tokA")] =
      .challenge "/subdomain-login?subdomain=beta" ∧
    frontendGate [acmeT, betaT] "/" "beta.docforge.com"
      [("subdomain_auth_beta", "tokA")] = .next (some betaT) ∧
    verifySubdomainAccess [("tokA", ⟨"idA", "acme", 1000⟩)] 0 "/" (some acmeT)
      [("subdomain_auth_acme", "tokA")] = .allow true := by
  decide

/-- C4: the unauthenticated `POST /api/tenant/by-domain` endpoint, given
just a domain (custom-domain or subdomain form), returns the matched
tenant's `apiKey` and plaintext `subdomainPassword` in its success
response: whenever either lookup succeeds the response is the full
projection of the tenant record, whose apiKey and subdomainPassword
fields equal the tenant's. -/
theorem c4_by_domain_discloses_secrets (dir : List Tenant) (d : String) (t : Tenant) :
    (findByCustomDomain dir d = some t →
      byDomainHandler dir d "custom" = some (tenantToByDomainResponse t) ∧
      (tenantToByDomainResponse t).apiKey = t.apiKey ∧
      (tenantToByDomainResponse t).subdomainPassword = t.subdomainPassword) ∧
    (findBySubdomain dir d = some t →
      byDomainHandler dir d "subdomain" = some (tenantToByDomainResponse t) ∧
      (tenantToByDomainResponse t).apiKey = t.apiKey ∧
      (tenantToByDomainResponse t).subdomainPassword = t.subdomainPassword) := by
  constructor <;> intro h <;> exact ⟨by simp [byDomainHandler, h], rfl, rfl⟩

/-- C4 witness: the anonymous lookup for the configured custom domain
docs.delta.com returns tenant delta's apiKey and subdomain password. -/
theorem c4_witness :
    byDomainHandler [customT] "docs.delta.com" "custom" =
      some (tenantToByDomainResponse customT) ∧
    (tenantToByDomainResponse customT).apiKey = customT.apiKey ∧
    (tenantToByDomainResponse customT).subdomainPassword = customT.subdomainPassword :=
  (c4_by_domain_discloses_secrets [customT] "docs.delta.com" customT).1 (by decide)

end DocForge
namespace DocForge

/-- C5 counterexample: the claim says the subdomain lookup happens only
when the host ENDS with the parent-domain suffix, and that a host neither
ending with it nor matching a custom domain resolves to absent.  The
source tests `host.includes('.docforge.com')` instead: the host
acme.docforge.com.evil.com does not end with ".docforge.com" and matches
no custom domain, yet resolves to tenant acme. -/
theorem c5_counterexample :
    specEndsWithParentSuffix "acme.docforge.com.evil.com" = false ∧
    findByCustomDomain [acmeT] "acme.docforge.com.evil.com" = none ∧
    identifyTenantByDomain [acmeT] "acme.docforge.com.evil.com" = some acmeT := by
  decide

/-- C5 (amended): when no custom domain matches, the resolver performs the
subdomain lookup on the leftmost label exactly when the host CONTAINS the
substring ".docforge.com" (in particular whenever it ends with it), and a
host that matches no custom domain and does not contain the substring
resolves to absent. -/
theorem c5_subdomain_lookup_on_substring (dir : List Tenant) (host : String)
    (hc : findByCustomDomain dir host = none) :
    (includesDocforge host = true →
      identifyTenantByDomain dir host = findBySubdomain dir (hostFirstLabel host)) ∧
    (includesDocforge host = false → identifyTenantByDomain dir host = none) := by
  unfold identifyTenantByDomain
  rw [hc]
  constructor <;> intro h <;> simp [h]

/-- C5 witness: with only tenant acme configured, the in-suffix host
acme.docforge.com resolves through the subdomain lookup, and the
suffix-free host acme.example.com resolves to absent. -/
theorem c5_witness :
    identifyTenantByDomain [acmeT] "acme.docforge.com" =
      findBySubdomain [acmeT] (hostFirstLabel "acme.docforge.com") ∧
    identifyTenantByDomain [acmeT] "acme.example.com" = none :=
  ⟨(c5_subdomain_lookup_on_substring [acmeT] "acme.docforge.com" (by decide)).1 (by decide),
   (c5_subdomain_lookup_on_substring [acmeT] "acme.example.com" (by decide)).2 (by decide)⟩

/-- C6: for a host exactly equal to the custom domain of a tenant that is
the unique holder of that custom domain, the resolver returns that tenant
- and since the custom-domain lookup is evaluated before the subdomain
branch, this holds for every directory, including those where the host
would also match some tenant's subdomain binding. -/
theorem c6_custom_domain_resolves_first (dir : List Tenant) (host : String) (t : Tenant)
    (hmem : t ∈ dir) (hcd : t.customDomain = some host)
    (huniq : ∀ u ∈ dir, u.customDomain = some host → u = t) :
    identifyTenantByDomain dir host = some t := by
  have hfind : findByCustomDomain dir host = some t :=
    findByCustomDomain_of_unique dir host t hmem hcd huniq
  unfold identifyTenantByDomain
  rw [hfind]

/-- C6 witness: host acme.docforge.com is both tenant epsi's custom domain
and (by leftmost label) tenant acme's subdomain host; resolution answers
the custom-domain tenant epsi. -/
theorem c6_witness :
    identifyTenantByDomain [acmeT, trickyT] "acme.docforge.com" = some trickyT :=
  c6_custom_domain_resolves_first [acmeT, trickyT] "acme.docforge.com" trickyT
    (by decide) (by decide) (by decide)

end DocForge
namespace DocForge

/-- Helper: the hex digit map is injective on nibbles. -/
theorem hexDigit_inj16 : ∀ a b : Fin 16, hexDigit a.val = hexDigit b.val → a = b := by
  decide

/-- Helper: two bytes below 256 with equal hex digit pairs are equal. -/
theorem hexByte_inj {x y : Nat} (hx : x < 256) (hy : y < 256)
    (h1 : hexDigit (x / 16 % 16) = hexDigit (y / 16 % 16))
    (h2 : hexDigit (x % 16) = hexDigit (y % 16)) : x = y := by
  have a1 : x / 16 % 16 = y / 16 % 16 := by
    have h := hexDigit_inj16 ⟨x / 16 % 16, Nat.mod_lt _ (by decide)⟩
      ⟨y / 16 % 16, Nat.mod_lt _ (by decide)⟩ h1
    exact congrArg Fin.val h
  have a2 : x % 16 = y % 16 := by
    have h := hexDigit_inj16 ⟨x % 16, Nat.mod_lt _ (by decide)⟩
      ⟨y % 16, Nat.mod_lt _ (by decide)⟩ h2
    exact congrArg Fin.val h
  omega

/-- Helper: hex encoding is injective on equal-length byte lists. -/
theorem hexChars_inj (xs : List Nat) : ∀ ys : List Nat,
    (∀ b ∈ xs, b < 256) → (∀ b ∈ ys, b < 256) → xs.length = ys.length →
    hexChars xs = hexChars ys → xs = ys := by
  induction xs with
  | nil =>
    intro ys _ _ hlen _
    cases ys with
    | nil => rfl
    | cons y ys => simp at hlen
  | cons x xs ih =>
    intro ys hx hy hlen heq
    cases ys with
    | nil => simp at hlen
    | cons y ys =>
      simp only [hexChars, List.cons.injEq] at heq
      obtain ⟨e1, e2, e3⟩ := heq
      have hxy : x = y := hexByte_inj (hx x (by simp)) (hy y (by simp)) e1 e2
      have htail : xs = ys :=
        ih ys (fun b hb => hx b (by simp [hb])) (fun b hb => hy b (by simp [hb]))
          (by simpa using hlen) e3
      rw [hxy, htail]

/-- Helper: the token generator is injective on the 2^256-element space of
32-byte draws, so the issued token carries the full 256 bits. -/
theorem generateSubdomainToken_inj :
    ∀ a b : ByteList32, generateSubdomainToken a.val = generateSubdomainToken b.val →
      a = b := by
  intro a b h
  have hdata : hexChars a.val = hexChars b.val := by
    have hc := congrArg String.data h
    simpa [generateSubdomainToken, bytesToHex] using hc
  exact Subtype.ext
    (hexChars_inj a.val b.val a.2.2 b.2.2 (by rw [a.2.1, b.2.1]) hdata)

/-- C7: a successful login - the subdomain resolves to a tenant whose
stored password is nonempty and equals the supplied one - returns a
cookie named `subdomain_auth_<label>`, valued with the hex encoding of
the 32 random bytes, HttpOnly, Secure exactly in production, Max-Age 24
hours, and pushes into the session store a session bound to the tenant's
id and subdomain label expiring at now + 24 hours; and the token
generator is injective on the 2^256-element randomness space (at least
256 bits of entropy are preserved in the token). -/
theorem c7_login_success (dir : List Tenant) (store : SessionStore) (production : Bool)
    (now : Nat) (randomBytes : List Nat) (sub password pw : String) (t : Tenant)
    (hfind : findBySubdomain dir sub = some t)
    (hpw : t.subdomainPassword = some pw) (hne : pw ≠ "") (hmatch : pw = password) :
    (subdomainLogin dir store production now randomBytes sub password).1 =
      .success ⟨"subdomain_auth_" ++ sub, generateSubdomainToken randomBytes, true,
        production, 24 * 60 * 60 * 1000⟩ "/dashboard" ∧
    (subdomainLogin dir store production now randomBytes sub password).2 =
      (generateSubdomainToken randomBytes,
        ⟨t.id, sub, now + 24 * 60 * 60 * 1000⟩) :: store ∧
    (∀ a b : ByteList32,
      generateSubdomainToken a.val = generateSubdomainToken b.val → a = b) := by
  have hsub : t.subdomain = some sub := subdomain_of_findBySubdomain hfind
  subst hmatch
  have h1 : (pw == "") = false := by simpa using hne
  refine ⟨?_, ?_, generateSubdomainToken_inj⟩ <;>
    simp [subdomainLogin, hfind, hpw, h1, hsub, optStr, dayMs]

/-- C7 witness: logging in to acme with the correct password and 32 zero
random bytes issues the expected cookie and session. -/
theorem c7_witness :
    (subdomainLogin [acmeT] [] true 0 zeros32 "acme" "secret123").1 =
      .success ⟨"subdomain_auth_acme", generateSubdomainToken zeros32, true, true,
        24 * 60 * 60 * 1000⟩ "/dashboard" ∧
    (subdomainLogin [acmeT] [] true 0 zeros32 "acme" "secret123").2 =
      [(generateSubdomainToken zeros32, ⟨"idA", "acme", 0 + 24 * 60 * 60 * 1000⟩)] ∧
    (∀ a b : ByteList32,
      generateSubdomainToken a.val = generateSubdomainToken b.val → a = b) :=
  c7_login_success [acmeT] [] true 0 zeros32 "acme" "secret123" "secret123" acmeT
    (by decide) (by decide) (by decide) rfl

end DocForge
namespace DocForge

/-- C8: every failing login - unknown subdomain, null (or empty) stored
password, or a mismatched password - returns the corresponding error
outcome, which carries no cookie, and leaves the session store exactly as
it was. -/
theorem c8_failed_login_no_effect (dir : List Tenant) (store : SessionStore)
    (production : Bool) (now : Nat) (randomBytes : List Nat) (sub password : String) :
    (findBySubdomain dir sub = none →
      subdomainLogin dir store production now randomBytes sub password =
        (.notFound, store)) ∧
    (∀ t, findBySubdomain dir sub = some t →
      (t.subdomainPassword = none →
        subdomainLogin dir store production now randomBytes sub password =
          (.invalidPassword, store)) ∧
      (∀ pw, t.subdomainPassword = some pw → pw ≠ password →
        subdomainLogin dir store production now randomBytes sub password =
          (.invalidPassword, store)) ∧
      (t.subdomainPassword = some "" →
        subdomainLogin dir store production now randomBytes sub password =
          (.invalidPassword, store))) := by
  refine ⟨?_, ?_⟩
  · intro h
    unfold subdomainLogin
    rw [h]
  · intro t ht
    refine ⟨?_, ?_, ?_⟩
    · intro h
      simp [subdomainLogin, ht, h]
    · intro pw hpw hne
      by_cases he : pw = ""
      · simp [subdomainLogin, ht, hpw, he]
      · simp [subdomainLogin, ht, hpw, he, hne]
    · intro h
      simp [subdomainLogin, ht, h]

/-- C8 witness: an unknown subdomain gives the not-found error and a wrong
password for acme gives the authentication error; both leave the (empty)
session store empty and set no cookie. -/
theorem c8_witness :
    subdomainLogin [acmeT] [] false 0 zeros32 "nosuch" "x" = (.notFound, []) ∧
    subdomainLogin [acmeT] [] false 0 zeros32 "acme" "wrong" = (.invalidPassword, []) :=
  ⟨(c8_failed_login_no_effect [acmeT] [] false 0 zeros32 "nosuch" "x").1 (by decide),
   ((c8_failed_login_no_effect [acmeT] [] false 0 zeros32 "acme" "wrong").2 acmeT
     (by decide)).2.1 "secret123" (by decide) (by decide)⟩

/-- C9 counterexample: the claim places the subdomain login page in the
exemption set.  The API-side gate exempts only the four path namespaces:
with tenant acme resolved and no session it CHALLENGEs /subdomain-login
(redirecting the login page to itself) rather than returning EXEMPT. -/
theorem c9_counterexample :
    verifySubdomainAccess [] 0 "/subdomain-login" (some acmeT) [] =
      .challenge "/subdomain-login?subdomain=acme" ∧
    verifySubdomainAccess [] 0 "/subdomain-login" (some acmeT) [] ≠ .exempt := by
  decide

/-- C9 (amended): every path under /api/, /css/, /js/ or /images/ is
EXEMPT in both gates regardless of tenant resolution, session store,
cookies and clock - the check runs before any tenant logic, and the
result is the same across repeated evaluations with arbitrary differing
states.  The login page path itself is NOT in this exemption set: the
API-side gate challenges it when a tenant with a password is resolved,
while the frontend gate passes it through inside its tenant branch. -/
theorem c9_exempt_path_namespaces (path : String) (hp : exemptPath path = true)
    (store store2 : SessionStore) (now now2 : Nat) (dt dt2 : Option Tenant)
    (cookies cookies2 : CookieMap) (dir : List Tenant) (host : String) :
    verifySubdomainAccess store now path dt cookies = .exempt ∧
    frontendGate dir path host cookies = .exempt ∧
    verifySubdomainAccess store now path dt cookies =
      verifySubdomainAccess store2 now2 path dt2 cookies2 := by
  unfold verifySubdomainAccess frontendGate
  simp [hp]

/-- C9 witness: /css/app.css is exempt in both gates for arbitrary session
state, and two evaluations under different stores, clocks, tenants and
cookies agree. -/
theorem c9_witness :
    verifySubdomainAccess [] 0 "/css/app.css" (some acmeT)
      [("subdomain_auth_acme", "garbage")] = .exempt ∧
    frontendGate [acmeT] "/css/app.css" "acme.docforge.com" [] = .exempt ∧
    verifySubdomainAccess [] 0 "/css/app.css" (some acmeT)
      [("subdomain_auth_acme", "garbage")] =
      verifySubdomainAccess [("t", ⟨"idA", "acme", 5⟩)] 9 "/css/app.css" none [] :=
  c9_exempt_path_namespaces "/css/app.css" (by decide) [] [("t", ⟨"idA", "acme", 5⟩)]
    0 9 (some acmeT) none [("subdomain_auth_acme", "garbage")] [] [acmeT]
    "acme.docforge.com"

/-- C10: none of the three tenant-configuration handlers ever changes the
apiKey, and each mutates only its own fields: the domain update leaves
apiKey, name, domain, id, subdomainPassword and domainSettings untouched;
the password update leaves everything but subdomainPassword untouched;
the branding update leaves everything but domainSettings untouched -
on validation failure the record is unchanged entirely. -/
theorem c10_apiKey_immutable (dir : List Tenant) (t : Tenant)
    (cd sd pw fav css logo color : Option String) :
    ((okOr (updateDomainHandler dir t cd sd) t).apiKey = t.apiKey ∧
     (okOr (updateDomainHandler dir t cd sd) t).name = t.name ∧
     (okOr (updateDomainHandler dir t cd sd) t).domain = t.domain ∧
     (okOr (updateDomainHandler dir t cd sd) t).id = t.id ∧
     (okOr (updateDomainHandler dir t cd sd) t).subdomainPassword = t.subdomainPassword ∧
     (okOr (updateDomainHandler dir t cd sd) t).domainSettings = t.domainSettings) ∧
    ((okOr (updateSubdomainPasswordHandler t pw) t).apiKey = t.apiKey ∧
     (okOr (updateSubdomainPasswordHandler t pw) t).name = t.name ∧
     (okOr (updateSubdomainPasswordHandler t pw) t).domain = t.domain ∧
     (okOr (updateSubdomainPasswordHandler t pw) t).id = t.id ∧
     (okOr (updateSubdomainPasswordHandler t pw) t).customDomain = t.customDomain ∧
     (okOr (updateSubdomainPasswordHandler t pw) t).subdomain = t.subdomain ∧
     (okOr (updateSubdomainPasswordHandler t pw) t).domainVerified = t.domainVerified ∧
     (okOr (updateSubdomainPasswordHandler t pw) t).domainSettings = t.domainSettings) ∧
    ((brandingHandler t fav css logo color).apiKey = t.apiKey ∧
     (brandingHandler t fav css logo color).name = t.name ∧
     (brandingHandler t fav css logo color).domain = t.domain ∧
     (brandingHandler t fav css logo color).id = t.id ∧
     (brandingHandler t fav css logo color).customDomain = t.customDomain ∧
     (brandingHandler t fav css logo color).subdomain = t.subdomain ∧
     (brandingHandler t fav css logo color).subdomainPassword = t.subdomainPassword ∧
     (brandingHandler t fav css logo color).domainVerified = t.domainVerified) := by
  refine ⟨?_, ?_, ?_⟩
  · unfold updateDomainHandler
    repeat' split
    all_goals simp [okOr]
  · unfold updateSubdomainPasswordHandler
    repeat' split
    all_goals simp [okOr]
  · simp [brandingHandler]

/-- C10 witness: a concrete domain update, password update and branding
update on tenant acme each leave the apiKey as issued. -/
theorem c10_witness :
    (okOr (updateDomainHandler [] acmeT (some "docs.acme.com") none) acmeT).apiKey =
      acmeT.apiKey ∧
    (okOr (updateSubdomainPasswordHandler acmeT (some "newpass1")) acmeT).apiKey =
      acmeT.apiKey ∧
    (brandingHandler acmeT none none none (some "#FF0000")).apiKey = acmeT.apiKey :=
  ⟨(c10_apiKey_immutable [] acmeT (some "docs.acme.com") none (some "newpass1")
      none none none (some "#FF0000")).1.1,
   (c10_apiKey_immutable [] acmeT (some "docs.acme.com") none (some "newpass1")
      none none none (some "#FF0000")).2.1.1,
   (c10_apiKey_immutable [] acmeT (some "docs.acme.com") none (some "newpass1")
      none none none (some "#FF0000")).2.2.1⟩

end DocForge
